import Mathlib

/-!
# Database viewer (`main.cc`): paged data access and scroll controller

A shallow embedding of `DatabaseManager` and of the pagination logic of `MyWindow`.

* `std::string` is `String`; one `Char` stands for one C++ `char`, `size()` is `String.length`.
* `gint` values are `Int`; the one place where the code computes with them
  (`m_current_offset += rows_data.size()`) goes through `toGint`.
* libgda, the C++ standard library conversions (`strtod`, stream output of a `gint` and
  of a `double`) and the connection are external to `main.cc`; they are the fields of `Env`.
* The streams of `main.cc` are default-constructed, so what they write for a number is
  decided by the global C++ locale of the process; `main.cc` never sets a locale of its own.
* Indexing `m_columns.m_cols[i]` past the end of that vector is undefined behaviour; the
  window operations return `none` there.
* The provider is a function of the query text: the data does not change during a run.
-/

namespace DbViewer

/-! ## External collaborators -/

/-- A `GValue` as far as `main.cc` looks at it. -/
structure GValue where
  /-- Result of `gda_value_is_null(value)`. -/
  is_null : Bool
  /-- Result of `g_strdup_value_contents(value)`, `none` for a NULL pointer. -/
  contents : Option String
  /-- Result of `g_type_name(G_VALUE_TYPE(value))`, `none` for a NULL pointer. -/
  type_name : Option String
  deriving DecidableEq

/-- A `GdaDataModel` through the accessors `main.cc` calls. -/
structure GdaDataModel where
  /-- Result of `gda_data_model_get_n_rows(model)`; libgda answers `-1` when it is unknown. -/
  n_rows : Int
  /-- Result of `gda_data_model_get_n_columns(model)`. -/
  n_cols : Int
  /-- Result of `gda_data_model_get_column_name(model, j)`, `none` for a NULL pointer. -/
  column_name : Nat → Option String
  /-- Result of `gda_data_model_get_value_at(model, col, row, NULL)`, `none` for a NULL pointer. -/
  value_at : Nat → Nat → Option GValue
  /-- The row count is a `gint`. -/
  n_rows_gint : n_rows < 2147483648

/-- What `main.cc` calls and does not define: libgda and the C/C++ library conversions. -/
structure Env where
  /-- The values of the C++ type `double`. -/
  Double : Type
  /-- Result of `strtod(str, &end)`: the value, the number of characters consumed (`end - str`),
  and whether `errno` was set to `ERANGE` -/
  strtod : (s : String) → Double × Fin (s.length + 1) × Bool
  /-- The text of `ss << std::fixed << std::setprecision(2) << value` -/
  put_fixed2 : Double → String
  /-- The text of `query_stream << value` for a `gint`, under the global C++ locale. -/
  put_gint : Int → String
  /-- Whether `gda_connection_open_from_string(provider, cnc_string, ...)` left `open_error` unset. -/
  open_from_string : String → String → Bool
  /-- Result of `gda_connection_execute_select_command(connection, sql, &error)`, `none` for NULL. -/
  execute_select : String → Option GdaDataModel

/-- The function `std::stod(str)`: calls `strtod`; throws `std::invalid_argument` when no conversion
could be performed and `std::out_of_range` on `ERANGE`. `none` stands for a throw. -/
def stod (env : Env) (str : String) : Option env.Double :=
  let r := env.strtod str
  if r.2.1.val = 0 then none
  else if r.2.2 then none
  else some r.1

/-! ## `gint` and `std::string` helpers -/

/-- Conversion of an integer to `gint` (32 bit, two's complement). -/
def toGint (x : Int) : Int := (x + 2147483648) % 4294967296 - 2147483648

/-- The call `s.substr(pos, n)` for `pos ≤ s.size()`. -/
def substr (s : String) (pos n : Nat) : String := ⟨(s.data.drop pos).take n⟩

/-- The call `s.front()`, `none` on the empty string. -/
def front (s : String) : Option Char := s.data.head?

/-- The call `s.back()`, `none` on the empty string. -/
def back (s : String) : Option Char := s.data.getLast?

/-! ## `DatabaseManager` -/

structure TableData where
  column_names : List String
  rows_data : List (List String)
  deriving DecidableEq

structure DatabaseManager where
  m_provider_name : String
  m_connection_string : String
  m_column_names : List String
  m_column_types : List String
  m_column_selection : String
  m_order_by : String
  deriving DecidableEq

/-- The function `get_db_connection()`: whether a connection came back (`false` is `nullptr`). -/
def get_db_connection (env : Env) (db : DatabaseManager) : Bool :=
  env.open_from_string db.m_provider_name db.m_connection_string

/-- The text accumulated in `query_stream` (lines 42-47). -/
def query_text (env : Env) (db : DatabaseManager) (table_name : String)
    (limit offset : Int) : String :=
  let q := ""
  let q := q ++ "SELECT " ++ db.m_column_selection ++ " FROM " ++ table_name
  let q := if db.m_order_by ≠ "" then q ++ " " ++ db.m_order_by else q
  q ++ " LIMIT " ++ env.put_gint limit ++ " OFFSET " ++ env.put_gint offset

/-- Lines 70-81: the text of a cell before the column rules. -/
def cell_text (value : Option GValue) : String :=
  match value with
  | some v =>
    if !v.is_null then
      match v.contents with
      | some general_str => general_str
      | none => ""
    else ""
  | none => ""

/-- Lines 85-99: the rule chain on the column name. -/
def format_value (env : Env) (column_name str_val : String) : String :=
  if column_name = "amount" then
    match stod env str_val with
    | some amount_val => env.put_fixed2 amount_val
    | none => str_val
  else if column_name = "name" ∧ str_val.length ≥ 2 ∧ front str_val = some '"'
      ∧ back str_val = some '"' then
    substr str_val 1 (str_val.length - 2)
  else if column_name = "creation_date" ∧ str_val.length ≥ 10 then
    substr str_val 0 10
  else if column_name = "creation_time" ∧ str_val.length ≥ 8 then
    substr str_val 0 8
  else str_val

/-- Lines 60-65: the names of the columns, those reported as NULL left out. -/
def capture_column_names (model : GdaDataModel) : List String :=
  (List.range model.n_cols.toNat).filterMap model.column_name

/-- Lines 69-102: the cell of row `i`, column `j`. -/
def row_cell (env : Env) (model : GdaDataModel) (column_names : List String)
    (i j : Nat) : String :=
  let str_val := cell_text (model.value_at j i)
  if h : column_names ≠ [] ∧ column_names.length > j then
    format_value env (column_names.get ⟨j, h.2⟩) str_val
  else str_val

/-- The function `DatabaseManager::get_paged_table_data`. -/
def get_paged_table_data (env : Env) (db : DatabaseManager) (table_name : String)
    (limit offset : Int) : TableData :=
  if get_db_connection env db = false then ⟨[], []⟩
  else
    match env.execute_select (query_text env db table_name limit offset) with
    | some model =>
      let column_names := capture_column_names model
      let rows_data := (List.range model.n_rows.toNat).map fun i =>
        (List.range model.n_cols.toNat).map fun j => row_cell env model column_names i j
      ⟨column_names, rows_data⟩
    | none => ⟨[], []⟩

def DatabaseManager.set_column_selection (db : DatabaseManager) (selection : String) :
    DatabaseManager :=
  { db with m_column_selection := selection }

def DatabaseManager.set_order_by (db : DatabaseManager) (order_by_clause : String) :
    DatabaseManager :=
  { db with m_order_by := order_by_clause }

/-- The text of `g_strdup_printf("SELECT * FROM %s LIMIT 1", table_name)`. -/
def probe_text (table_name : String) : String :=
  "SELECT * FROM " ++ table_name ++ " LIMIT 1"

/-- The function `DatabaseManager::get_column_names_internal`. -/
def get_column_names_internal (env : Env) (db : DatabaseManager) (table_name : String) :
    List String :=
  if get_db_connection env db = false then []
  else
    match env.execute_select (probe_text table_name) with
    | some model => (List.range model.n_cols.toNat).filterMap model.column_name
    | none => []

/-- The function `DatabaseManager::get_column_types_internal`. -/
def get_column_types_internal (env : Env) (db : DatabaseManager) (table_name : String) :
    List String :=
  if get_db_connection env db = false then []
  else
    match env.execute_select (probe_text table_name) with
    | some model =>
      (List.range model.n_cols.toNat).filterMap fun j =>
        match model.value_at j 0 with
        | some value => value.type_name
        | none => none
    | none => []

/-- The constructor `DatabaseManager::DatabaseManager`. -/
def DatabaseManager.create (env : Env) (provider_name connection_string : String) :
    DatabaseManager :=
  let db : DatabaseManager :=
    { m_provider_name := provider_name, m_connection_string := connection_string,
      m_column_names := [], m_column_types := [],
      m_column_selection := "*", m_order_by := "" }
  let db := { db with m_column_names := get_column_names_internal env db "data_types" }
  { db with m_column_types := get_column_types_internal env db "data_types" }

def DatabaseManager.get_cached_column_names (db : DatabaseManager) : List String :=
  db.m_column_names

def DatabaseManager.get_cached_column_types (db : DatabaseManager) : List String :=
  db.m_column_types

/-! ## `MyWindow`: the scroll controller -/

/-- The members of `MyWindow` the loading logic reads and writes. -/
structure MyWindow where
  m_current_offset : Int
  m_page_size : Int
  /-- The size of the vector `m_columns.m_cols`. -/
  m_cols : Nat
  /-- The header labels of the columns of `m_treeview`, in order. -/
  tree_columns : List String
  /-- The rows of `m_list_store`: for each row the cell values written into it. -/
  m_list_store : List (List String)
  /-- The messages of the alert dialogs shown so far. -/
  alerts : List String
  /-- Ghost field: the calls of `get_paged_table_data` made so far, as (limit, offset). -/
  fetches : List (Int × Int)
  deriving DecidableEq

/-- The member initialisers of the constructor, before its call of `load_data_types(true)`;
the source fixes the page size at 50. -/
def MyWindow.init (page_size : Int) : MyWindow :=
  { m_current_offset := 0, m_page_size := page_size, m_cols := 0, tree_columns := [],
    m_list_store := [], alerts := [], fetches := [] }

/-- Lines 484-486: the values of one row are written through `m_columns.m_cols[i]` for
every `i < row.size()`; `none` when that index leaves the vector. -/
def set_row_values (m_cols : Nat) (row : List String) : Option (List String) :=
  if row.length ≤ m_cols then some row else none

/-- Lines 482-487: every row of the page is appended to the list store. -/
def append_rows (m_cols : Nat) : List (List String) → List (List String) →
    Option (List (List String))
  | [], store => some store
  | row :: rest, store =>
    match set_row_values m_cols row with
    | some r => append_rows m_cols rest (store ++ [r])
    | none => none

/-- The function `MyWindow::load_data_types`. -/
def load_data_types (env : Env) (db : DatabaseManager) (is_initial_load : Bool)
    (w : MyWindow) : Option MyWindow :=
  let table_data := get_paged_table_data env db "data_types" w.m_page_size w.m_current_offset
  let w := { w with fetches := w.fetches ++ [(w.m_page_size, w.m_current_offset)] }
  if table_data.rows_data.isEmpty && is_initial_load then
    some { w with alerts := w.alerts ++ ["Error database connection or no data."] }
  else if table_data.rows_data.isEmpty && !is_initial_load then
    some w
  else
    let w :=
      if is_initial_load then
        { w with m_cols := table_data.column_names.length, m_list_store := [],
                 tree_columns := w.tree_columns ++ table_data.column_names }
      else w
    match append_rows w.m_cols table_data.rows_data w.m_list_store with
    | some store =>
      some { w with m_list_store := store,
                    m_current_offset := toGint (w.m_current_offset + table_data.rows_data.length) }
    | none => none

/-- The function `MyWindow::reset_and_reload_data`. -/
def reset_and_reload_data (env : Env) (db : DatabaseManager) (w : MyWindow) : Option MyWindow :=
  load_data_types env db true
    { w with m_list_store := [], tree_columns := [], m_current_offset := 0 }

/-- The handler `MyWindow::on_select_columns_button_clicked`. -/
def on_select_columns_button_clicked (env : Env) (db : DatabaseManager) (w : MyWindow) :
    DatabaseManager × Option MyWindow :=
  let db := db.set_column_selection "id, name, amount"
  (db, reset_and_reload_data env db w)

/-- The handler `MyWindow::on_sort_by_date_button_clicked`. -/
def on_sort_by_date_button_clicked (env : Env) (db : DatabaseManager) (w : MyWindow) :
    DatabaseManager × Option MyWindow :=
  let db := db.set_column_selection "*"
  let db := db.set_order_by "ORDER BY creation_date DESC"
  (db, reset_and_reload_data env db w)

/-- The enumeration `Gtk::PositionType`. -/
inductive PositionType where
  | LEFT | RIGHT | TOP | BOTTOM
  deriving DecidableEq

/-- The handler `MyWindow::on_edge_reached`. -/
def on_edge_reached (env : Env) (db : DatabaseManager) (pos : PositionType) (w : MyWindow) :
    Option MyWindow :=
  if pos = PositionType.BOTTOM then load_data_types env db false w else some w

/-- The window after `k` bottom-edge signals in a row, starting from `w`. -/
def edge_requests (env : Env) (db : DatabaseManager) (w : MyWindow) : Nat → Option MyWindow
  | 0 => some w
  | k + 1 => (edge_requests env db w k).bind (on_edge_reached env db PositionType.BOTTOM)

/-- A new window (its constructor runs the initial load) followed by `k` bottom-edge
signals. -/
def loads (env : Env) (db : DatabaseManager) (page_size : Int) (k : Nat) : Option MyWindow :=
  (load_data_types env db true (MyWindow.init page_size)).bind fun w => edge_requests env db w k

/-! ## A provider serving one table, for concrete runs -/

/-- The number a list of decimal digits writes. -/
def digits_value (l : List Char) : Nat :=
  l.foldl (fun acc c => acc * 10 + (c.toNat - 48)) 0

/-- The number written by the digits at the end of a text (0 when there is none). -/
def trailing_number (q : String) : Nat :=
  digits_value (q.data.reverse.takeWhile Char.isDigit).reverse

/-- The result set of `LIMIT p OFFSET o` over a table of `n` rows with the columns `columns`,
whose cell in row `r`, column `j` is `cell r j`. -/
def table_page (columns : List String) (cell : Nat → Nat → GValue) (n p : Nat)
    (hp : p < 2147483648) (o : Nat) : GdaDataModel :=
  { n_rows := ((min (o + p) n - o : Nat) : Int)
    n_cols := (columns.length : Int)
    column_name := fun j => columns[j]?
    value_at := fun j i =>
      if j < columns.length ∧ i < min (o + p) n - o then some (cell (o + i) j) else none
    n_rows_gint := by omega }

/-- An environment whose connection opens and whose every query is answered from one table,
at the offset written at the end of the query and with page size `p`. Its `double` is
symbolic: `strtod` consumes the whole text and keeps it, and the output is that text after
the word `fixed2`. Integers are written in plain decimal (the classic locale). -/
def table_env (columns : List String) (cell : Nat → Nat → GValue) (n p : Nat)
    (hp : p < 2147483648) : Env :=
  { Double := String
    strtod := fun s => (s, Fin.last s.length, false)
    put_fixed2 := fun d => "fixed2 " ++ d
    put_gint := fun x => toString x
    open_from_string := fun _ _ => true
    execute_select := fun q => some (table_page columns cell n p hp (trailing_number q)) }

/-- The database manager of `main` after `set_order_by("ORDER BY id")`, with empty caches. -/
def plain_db : DatabaseManager :=
  { m_provider_name := "SQLite", m_connection_string := "DB_NAME=users",
    m_column_names := [], m_column_types := [],
    m_column_selection := "*", m_order_by := "ORDER BY id" }

/-- The cell of the sample table: the text `r<row>c<column>`. -/
def sample_cell (r j : Nat) : GValue :=
  { is_null := false, contents := some ("r" ++ toString r ++ "c" ++ toString j),
    type_name := some "gchararray" }

/-- An environment answering every query with the given result set; its `double` is
symbolic as in `table_env`. -/
def fixed_env (model : GdaDataModel) : Env :=
  { Double := String
    strtod := fun s => (s, Fin.last s.length, false)
    put_fixed2 := fun d => "fixed2 " ++ d
    put_gint := fun x => toString x
    open_from_string := fun _ _ => true
    execute_select := fun _ => some model }

/-- A text value. -/
def text_value (s : String) : GValue :=
  { is_null := false, contents := some s, type_name := some "gchararray" }

/-- One row, two columns; the provider reports no name for column 0 and `name` for
column 1. The cells are the texts `"x"` (with its quotes) and `"y"`. -/
def unnamed_column_model : GdaDataModel :=
  { n_rows := 1
    n_cols := 2
    column_name := fun j => if j = 1 then some "name" else none
    value_at := fun j _ => if j = 0 then some (text_value "\"x\"") else some (text_value "\"y\"")
    n_rows_gint := by decide }

/-- The table `data_types` with its five columns and no row: there is no value at row 0. -/
def empty_table_model : GdaDataModel :=
  { n_rows := 0
    n_cols := 5
    column_name := fun j => ["id", "name", "amount", "creation_date", "creation_time"][j]?
    value_at := fun _ _ => none
    n_rows_gint := by decide }

/-- One row of three columns `a`, `b`, `c` where the value of column `a` cannot be read. -/
def unreadable_first_model : GdaDataModel :=
  { n_rows := 1
    n_cols := 3
    column_name := fun j => ["a", "b", "c"][j]?
    value_at := fun j _ =>
      if j = 0 then none
      else if j = 1 then some { is_null := false, contents := some "1", type_name := some "gint" }
      else some (text_value "z")
    n_rows_gint := by decide }

/-- One row with the columns `id` and `amount`; the amount is the SQL null. -/
def null_amount_model : GdaDataModel :=
  { n_rows := 1
    n_cols := 2
    column_name := fun j => ["id", "amount"][j]?
    value_at := fun j _ =>
      if j = 0 then some { is_null := false, contents := some "7", type_name := some "gint" }
      else some { is_null := true, contents := some "NULL", type_name := some "GdaNull" }
    n_rows_gint := by decide }

/-- Two rows with the columns `name` and `amount`. -/
def two_row_model : GdaDataModel :=
  { n_rows := 2
    n_cols := 2
    column_name := fun j => ["name", "amount"][j]?
    value_at := fun j i =>
      if j = 0 then some (text_value ("\"Item " ++ toString (i + 1) ++ "\""))
      else some { is_null := false, contents := some "100.5", type_name := some "gdouble" }
    n_rows_gint := by decide }

/-- The table provider over three rows of two columns, serving pages of two rows. -/
def small_env : Env := table_env ["a", "b"] sample_cell 3 2 (by decide)

/-- The window over `small_env` after the initial load and two bottom-edge signals: the
third fetch, at offset 3, has returned no row. -/
def exhausted_window : MyWindow :=
  { m_current_offset := 3, m_page_size := 2, m_cols := 2, tree_columns := ["a", "b"],
    m_list_store := [["r0c0", "r0c1"], ["r1c0", "r1c1"], ["r2c0", "r2c1"]],
    alerts := [], fetches := [(2, 0), (2, 2), (2, 3)] }

/-- The table `data_types` as `main.cc` seeds it in size: 1000 rows of five columns, served
in pages of 50. -/
def seeded_env : Env :=
  table_env ["id", "name", "amount", "creation_date", "creation_time"] sample_cell 1000 50
    (by decide)

/-- A table of 2147483650 rows of one column, served in pages of 50. -/
def huge_env : Env := table_env ["a"] sample_cell 2147483650 50 (by decide)

/-! ## A locale with digit grouping and a decimal `strtod`, for concrete runs -/

theorem length_eq_data (s : String) : s.length = s.data.length := rfl

/-- A list of length at least two whose first and last element are `c` is `c`, an interior,
then `c`. -/
theorem bounded_by (c : Char) (l : List Char) (hlen : 2 ≤ l.length)
    (hf : l.head? = some c) (hb : l.getLast? = some c) :
    ∃ mid, l = c :: (mid ++ [c]) := by
  cases l with
  | nil => simp at hlen
  | cons a t =>
    simp only [List.head?_cons, Option.some.injEq] at hf
    subst hf
    have ht : t ≠ [] := by
      intro h
      simp [h] at hlen
    refine ⟨t.dropLast, ?_⟩
    have h1 : (a :: t).getLast? = t.getLast? := by
      cases t with
      | nil => exact absurd rfl ht
      | cons b u => simp [List.getLast?_cons_cons]
    rw [h1, List.getLast?_eq_getLast t ht] at hb
    simp only [Option.some.injEq] at hb
    have h2 := List.dropLast_append_getLast ht
    rw [hb] at h2
    rw [h2]

/-- C6: in the column `name`, a value of length at least 2 whose first and last character
are both the double quote loses exactly these two characters; every other value is
unchanged. -/
theorem format_value_name (env : Env) (s : String) :
    ((2 ≤ s.length ∧ s.data.head? = some '"' ∧ s.data.getLast? = some '"') →
        ∃ mid : List Char, s.data = '"' :: (mid ++ ['"'])
          ∧ (format_value env "name" s).data = mid
          ∧ (format_value env "name" s).length + 2 = s.length)
      ∧ (¬ (2 ≤ s.length ∧ s.data.head? = some '"' ∧ s.data.getLast? = some '"') →
          format_value env "name" s = s)
      ∧ format_value env "name" "\"Item 1\"" = "Item 1"
      ∧ format_value env "name" "\"x" = "\"x"
      ∧ format_value env "name" "\"" = "\"" := by
  refine ⟨?_, ?_, rfl, rfl, rfl⟩
  · intro h
    obtain ⟨mid, hmid⟩ := bounded_by '"' s.data h.1 h.2.1 h.2.2
    have hfmt : format_value env "name" s = substr s 1 (s.length - 2) := by
      have h' : s.length ≥ 2 ∧ front s = some '"' ∧ back s = some '"' := h
      simp [format_value, h']
    have hlen : s.length = mid.length + 2 := by
      rw [length_eq_data, hmid]
      simp
    refine ⟨mid, hmid, ?_, ?_⟩
    · rw [hfmt]
      simp [substr, hmid, hlen]
    · rw [hfmt, length_eq_data]
      simp [substr, hmid, hlen]
  · intro h
    have h' : ¬ (s.length ≥ 2 ∧ front s = some '"' ∧ back s = some '"') := h
    simp only [format_value]
    rw [if_neg (by decide), if_neg (fun hc => h' hc.2), if_neg (fun hc => by simp at hc),
      if_neg (fun hc => by simp at hc)]

/-- The witness of `format_value_name`: the quoted text `"ab"` and the one-sided `"a`. -/
theorem format_value_name_witness :
    (∃ mid : List Char, ("\"ab\"" : String).data = '"' :: (mid ++ ['"'])
        ∧ (format_value (table_env [] sample_cell 0 0 (by decide)) "name" "\"ab\"").data = mid
        ∧ (format_value (table_env [] sample_cell 0 0 (by decide)) "name" "\"ab\"").length + 2
            = ("\"ab\"" : String).length)
      ∧ format_value (table_env [] sample_cell 0 0 (by decide)) "name" "\"a" = "\"a" :=
  ⟨(format_value_name (table_env [] sample_cell 0 0 (by decide)) "\"ab\"").1 (by decide),
   (format_value_name (table_env [] sample_cell 0 0 (by decide)) "\"a").2.1 (by decide)⟩

/-- C7: `creation_date` keeps the first 10 characters of a value of length at least 10 and
`creation_time` the first 8 of a value of length at least 8; shorter values are unchanged. -/
theorem format_value_truncation (env : Env) (s : String) :
    (10 ≤ s.length → (format_value env "creation_date" s).data = s.data.take 10
        ∧ (format_value env "creation_date" s).length = 10)
      ∧ (s.length < 10 → format_value env "creation_date" s = s)
      ∧ (8 ≤ s.length → (format_value env "creation_time" s).data = s.data.take 8
        ∧ (format_value env "creation_time" s).length = 8)
      ∧ (s.length < 8 → format_value env "creation_time" s = s)
      ∧ format_value env "creation_date" "2023-05-10 12:00:00" = "2023-05-10"
      ∧ format_value env "creation_time" "12:00:00.123" = "12:00:00" := by
  refine ⟨?_, ?_, ?_, ?_, rfl, rfl⟩
  · intro h
    have hfmt : format_value env "creation_date" s = substr s 0 10 := by
      simp [format_value, h]
    have h2 : _ ≤ s.data.length := h
    rw [hfmt, length_eq_data]
    simp [substr, h, h2]
  · intro h
    have h' : ¬ (s.length ≥ 10) := by omega
    simp [format_value, h']
  · intro h
    have hfmt : format_value env "creation_time" s = substr s 0 8 := by
      simp [format_value, h]
    have h2 : _ ≤ s.data.length := h
    rw [hfmt, length_eq_data]
    simp [substr, h, h2]
  · intro h
    have h' : ¬ (s.length ≥ 8) := by omega
    simp [format_value, h']

/-- The witness of `format_value_truncation`: a long and a short value for each column. -/
theorem format_value_truncation_witness :
    (format_value (table_env [] sample_cell 0 0 (by decide)) "creation_date"
        "2024-01-02T03:04:05").data = ("2024-01-02T03:04:05" : String).data.take 10
      ∧ format_value (table_env [] sample_cell 0 0 (by decide)) "creation_date" "2024-01"
          = "2024-01"
      ∧ (format_value (table_env [] sample_cell 0 0 (by decide)) "creation_time"
          "03:04:05.678").data = ("03:04:05.678" : String).data.take 8
      ∧ format_value (table_env [] sample_cell 0 0 (by decide)) "creation_time" "03:04"
          = "03:04" :=
  ⟨((format_value_truncation (table_env [] sample_cell 0 0 (by decide))
      "2024-01-02T03:04:05").1 (by decide)).1,
   (format_value_truncation (table_env [] sample_cell 0 0 (by decide)) "2024-01").2.1
      (by decide),
   ((format_value_truncation (table_env [] sample_cell 0 0 (by decide))
      "03:04:05.678").2.2.1 (by decide)).1,
   (format_value_truncation (table_env [] sample_cell 0 0 (by decide)) "03:04").2.2.2.1
      (by decide)⟩

theorem get_paged_of_model {env : Env} {db : DatabaseManager} {table : String}
    {limit offset : Int} {model : GdaDataModel}
    (hopen : env.open_from_string db.m_provider_name db.m_connection_string = true)
    (hexec : env.execute_select (query_text env db table limit offset) = some model) :
    get_paged_table_data env db table limit offset
      = ⟨capture_column_names model,
         (List.range model.n_rows.toNat).map fun i =>
           (List.range model.n_cols.toNat).map fun j =>
             row_cell env model (capture_column_names model) i j⟩ := by
  simp [get_paged_table_data, get_db_connection, hopen, hexec]

theorem stod_empty (env : Env) : stod env "" = none := by
  have h : ((env.strtod "").2.1 : Nat) < 0 + 1 := (env.strtod "").2.1.isLt
  have h0 : ((env.strtod "").2.1 : Nat) = 0 := by omega
  simp [stod, h0]

theorem format_value_empty (env : Env) (column_name : String) :
    format_value env column_name "" = "" := by
  unfold format_value
  split
  · rw [stod_empty]
  · split
    · rename_i h
      exact absurd h.2.1 (by decide)
    · split
      · rename_i h
        exact absurd h.2 (by decide)
      · split
        · rename_i h
          exact absurd h.2 (by decide)
        · rfl

theorem row_cell_empty (env : Env) (model : GdaDataModel) (names : List String) (i j : Nat)
    (h : cell_text (model.value_at j i) = "") : row_cell env model names i j = "" := by
  unfold row_cell
  simp only [h]
  split
  · exact format_value_empty env _
  · rfl

/-- C9: a cell whose source value is absent (a NULL pointer) or null is the empty string in
the returned row, whatever the column is called; no column rule changes the empty string. -/
theorem null_value_cell (env : Env) (db : DatabaseManager) (table : String)
    (limit offset : Int) (model : GdaDataModel) (i j : Nat)
    (hopen : env.open_from_string db.m_provider_name db.m_connection_string = true)
    (hexec : env.execute_select (query_text env db table limit offset) = some model)
    (hi : i < model.n_rows.toNat) (hj : j < model.n_cols.toNat)
    (hnull : model.value_at j i = none
      ∨ ∃ v, model.value_at j i = some v ∧ v.is_null = true) :
    (∃ row, (get_paged_table_data env db table limit offset).rows_data[i]? = some row
        ∧ row[j]? = some "")
      ∧ format_value env "amount" "" = "" ∧ format_value env "name" "" = ""
      ∧ format_value env "creation_date" "" = "" ∧ format_value env "creation_time" "" = ""
      ∧ ∀ column_name, format_value env column_name "" = "" := by
  refine ⟨?_, format_value_empty env _, format_value_empty env _, format_value_empty env _,
    format_value_empty env _, format_value_empty env⟩
  have htext : cell_text (model.value_at j i) = "" := by
    rcases hnull with h | ⟨v, h, hv⟩
    · simp [cell_text, h]
    · simp [cell_text, h, hv]
  rw [get_paged_of_model hopen hexec]
  refine ⟨(List.range model.n_cols.toNat).map fun j =>
    row_cell env model (capture_column_names model) i j, ?_, ?_⟩
  · simp [List.getElem?_map, List.getElem?_range hi]
  · simp [List.getElem?_map, List.getElem?_range hj, row_cell_empty env model _ i j htext]

/-- The witness of `null_value_cell`: the null amount of `null_amount_model`. -/
theorem null_value_cell_witness :
    (∃ row, (get_paged_table_data (fixed_env null_amount_model) plain_db "data_types"
        50 0).rows_data[0]? = some row ∧ row[1]? = some "")
      ∧ format_value (fixed_env null_amount_model) "amount" "" = ""
      ∧ format_value (fixed_env null_amount_model) "amount" "5" = "fixed2 5" :=
  ⟨(null_value_cell (fixed_env null_amount_model) plain_db "data_types" 50 0
      null_amount_model 0 1 rfl rfl (by decide) (by decide)
      (Or.inr ⟨_, rfl, rfl⟩)).1,
   (null_value_cell (fixed_env null_amount_model) plain_db "data_types" 50 0
      null_amount_model 0 1 rfl rfl (by decide) (by decide)
      (Or.inr ⟨_, rfl, rfl⟩)).2.1,
   by decide⟩

theorem capture_all_names (model : GdaDataModel) (name : Nat → String)
    (hnames : ∀ j, j < model.n_cols.toNat → model.column_name j = some (name j)) :
    capture_column_names model = (List.range model.n_cols.toNat).map name := by
  unfold capture_column_names
  have h : ∀ (l : List Nat), (∀ j ∈ l, j < model.n_cols.toNat) →
      l.filterMap model.column_name = l.map name := by
    intro l
    induction l with
    | nil => intro _; rfl
    | cons a t ih =>
      intro hl
      have ha := hnames a (hl a (List.mem_cons_self a t))
      rw [List.filterMap_cons, ha, List.map_cons,
        ih (fun j hj => hl j (List.mem_cons_of_mem a hj))]
  exact h _ (fun j hj => List.mem_range.mp hj)

theorem row_cell_named (env : Env) (model : GdaDataModel) (names : List String)
    (i j : Nat) (c : String) (h : names[j]? = some c) :
    row_cell env model names i j = format_value env c (cell_text (model.value_at j i)) := by
  obtain ⟨hlt, hget⟩ := List.getElem?_eq_some.mp h
  have hne : names ≠ [] := by
    intro h0
    rw [h0] at hlt
    simp at hlt
  unfold row_cell
  simp only []
  rw [dif_pos ⟨hne, hlt⟩]
  simp [List.get_eq_getElem, hget]

/-- C4, counterexample: for the one-row result set with an unnamed column 0 and the column
`name` at 1, the page has one column name and a row of two cells; the rule of `name` has hit
the cell of column 0. -/
theorem unnamed_column_breaks_width :
    get_paged_table_data (fixed_env unnamed_column_model) plain_db "data_types" 50 0
        = ⟨["name"], [["x", "\"y\""]]⟩
      ∧ ¬ (∀ row ∈ (get_paged_table_data (fixed_env unnamed_column_model) plain_db
            "data_types" 50 0).rows_data,
          row.length = (get_paged_table_data (fixed_env unnamed_column_model) plain_db
            "data_types" 50 0).column_names.length) := by
  have h : get_paged_table_data (fixed_env unnamed_column_model) plain_db "data_types" 50 0
      = ⟨["name"], [["x", "\"y\""]]⟩ := by decide
  refine ⟨h, ?_⟩
  rw [h]
  decide

/-- C4, amended: when the provider reports a name for every column of the result set, the
page lists these names in column order, has one row per result row, every row has exactly
as many cells as there are column names, and the cell at row `i`, column `j` is the value
at (`j`, `i`) formatted under the name of column `j`. -/
theorem rows_match_columns (env : Env) (db : DatabaseManager) (table : String)
    (limit offset : Int) (model : GdaDataModel) (name : Nat → String)
    (hopen : env.open_from_string db.m_provider_name db.m_connection_string = true)
    (hexec : env.execute_select (query_text env db table limit offset) = some model)
    (hnames : ∀ j, j < model.n_cols.toNat → model.column_name j = some (name j)) :
    (get_paged_table_data env db table limit offset).column_names
        = (List.range model.n_cols.toNat).map name
      ∧ (get_paged_table_data env db table limit offset).rows_data.length
        = model.n_rows.toNat
      ∧ (∀ row ∈ (get_paged_table_data env db table limit offset).rows_data,
          row.length = (get_paged_table_data env db table limit offset).column_names.length)
      ∧ (∀ i j, i < model.n_rows.toNat → j < model.n_cols.toNat →
          ∃ row, (get_paged_table_data env db table limit offset).rows_data[i]? = some row
            ∧ row[j]? = some (format_value env (name j) (cell_text (model.value_at j i)))) := by
  have hcap := capture_all_names model name hnames
  rw [get_paged_of_model hopen hexec]
  refine ⟨hcap, by simp, ?_, ?_⟩
  · intro row hrow
    simp only [List.mem_map, List.mem_range] at hrow
    obtain ⟨i, _, rfl⟩ := hrow
    simp [hcap]
  · intro i j hi hj
    refine ⟨(List.range model.n_cols.toNat).map fun j =>
      row_cell env model (capture_column_names model) i j, ?_, ?_⟩
    · simp [List.getElem?_map, List.getElem?_range hi]
    · have hc : (capture_column_names model)[j]? = some (name j) := by
        rw [hcap]
        simp [List.getElem?_map, List.getElem?_range hj]
      simp [List.getElem?_map, List.getElem?_range hj,
        row_cell_named env model _ i j (name j) hc]

/-- The witness of `rows_match_columns`: the two rows of `two_row_model`. -/
theorem rows_match_columns_witness :
    (get_paged_table_data (fixed_env two_row_model) plain_db "data_types" 50 0).column_names
        = ["name", "amount"]
      ∧ (∀ row ∈ (get_paged_table_data (fixed_env two_row_model) plain_db "data_types"
            50 0).rows_data,
          row.length = (get_paged_table_data (fixed_env two_row_model) plain_db "data_types"
            50 0).column_names.length)
      ∧ (get_paged_table_data (fixed_env two_row_model) plain_db "data_types" 50 0).rows_data
        = [["Item 1", "fixed2 100.5"], ["Item 2", "fixed2 100.5"]] :=
  ⟨(rows_match_columns (fixed_env two_row_model) plain_db "data_types" 50 0 two_row_model
      (fun j => ["name", "amount"].getD j "") rfl rfl (by decide)).1,
   (rows_match_columns (fixed_env two_row_model) plain_db "data_types" 50 0 two_row_model
      (fun j => ["name", "amount"].getD j "") rfl rfl (by decide)).2.2.1,
   by decide⟩

/-- C10, at the failing inputs: over the empty table the cached names are the five columns
and the cached types are none; with an unreadable first value in column `a` the two types
kept sit under the names `a` and `b` although they belong to `b` and `c`. -/
theorem schema_probe_type_mismatch :
    (DatabaseManager.create (fixed_env empty_table_model) "SQLite"
        "DB_NAME=users").get_cached_column_names
        = ["id", "name", "amount", "creation_date", "creation_time"]
      ∧ (DatabaseManager.create (fixed_env empty_table_model) "SQLite"
        "DB_NAME=users").get_cached_column_types = []
      ∧ (DatabaseManager.create (fixed_env unreadable_first_model) "SQLite"
        "DB_NAME=users").get_cached_column_names = ["a", "b", "c"]
      ∧ (DatabaseManager.create (fixed_env unreadable_first_model) "SQLite"
        "DB_NAME=users").get_cached_column_types = ["gint", "gchararray"] := by
  decide

/-! ## The table provider answers `LIMIT p OFFSET o` -/

theorem digitChar_isDigit : ∀ d, d < 10 → (Nat.digitChar d).isDigit = true := by decide

theorem digitChar_value : ∀ d, d < 10 → (Nat.digitChar d).toNat - 48 = d := by decide

theorem toDigitsCore_append (fuel : Nat) : ∀ (n : Nat) (ds : List Char),
    Nat.toDigitsCore 10 fuel n ds = Nat.toDigitsCore 10 fuel n [] ++ ds := by
  induction fuel with
  | zero => intro n ds; simp [Nat.toDigitsCore]
  | succ f ih =>
    intro n ds
    simp only [Nat.toDigitsCore]
    split
    · simp
    · rw [ih (n / 10) (Nat.digitChar (n % 10) :: ds), ih (n / 10) [Nat.digitChar (n % 10)]]
      simp

theorem toDigitsCore_isDigit (fuel : Nat) : ∀ (n : Nat),
    ∀ c ∈ Nat.toDigitsCore 10 fuel n [], c.isDigit = true := by
  induction fuel with
  | zero => intro n c hc; simp [Nat.toDigitsCore] at hc
  | succ f ih =>
    intro n c hc
    simp only [Nat.toDigitsCore] at hc
    split at hc
    · simp only [List.mem_singleton] at hc
      rw [hc]
      exact digitChar_isDigit _ (Nat.mod_lt _ (by decide))
    · rw [toDigitsCore_append] at hc
      simp only [List.mem_append, List.mem_singleton] at hc
      rcases hc with hc | hc
      · exact ih _ c hc
      · rw [hc]
        exact digitChar_isDigit _ (Nat.mod_lt _ (by decide))

theorem toDigitsCore_value (fuel : Nat) : ∀ (n : Nat), n < fuel →
    digits_value (Nat.toDigitsCore 10 fuel n []) = n := by
  induction fuel with
  | zero => intro n h; omega
  | succ f ih =>
    intro n h
    simp only [Nat.toDigitsCore]
    split
    · rename_i h0
      have hv := digitChar_value _ (Nat.mod_lt n (by decide : 0 < 10))
      have hn : n % 10 = n := by omega
      rw [hn] at hv
      simp [digits_value, hn, hv]
    · rename_i h0
      rw [toDigitsCore_append]
      have hlt : n / 10 < f := by omega
      have := ih (n / 10) hlt
      simp only [digits_value] at this ⊢
      rw [List.foldl_append, this]
      simp [digitChar_value _ (Nat.mod_lt n (by decide : 0 < 10))]
      omega

theorem takeWhile_stops {α : Type} (p : α → Bool) (l : List α) (x : α) (r : List α)
    (hl : ∀ a ∈ l, p a = true) (hx : p x = false) : (l ++ x :: r).takeWhile p = l := by
  induction l with
  | nil => simp [List.takeWhile, hx]
  | cons a t ih =>
    have ha := hl a (List.mem_cons_self a t)
    simp [List.takeWhile, ha, ih (fun b hb => hl b (List.mem_cons_of_mem a hb))]

theorem trailing_number_query (env : Env) (db : DatabaseManager) (table : String)
    (limit : Int) (o : Nat) (hput : env.put_gint (o : Int) = toString (o : Int)) :
    trailing_number (query_text env db table limit (o : Int)) = o := by
  have hq : ∃ pre : List Char,
      (query_text env db table limit (o : Int)).data = pre ++ ' ' :: Nat.toDigits 10 o := by
    have hs : (env.put_gint ((o : Nat) : Int)).data = Nat.toDigits 10 o := by
      rw [hput]
      rfl
    have ho : (" OFFSET " : String).data = (" OFFSET" : String).data ++ [' '] := rfl
    refine ⟨((if db.m_order_by ≠ "" then
        "" ++ "SELECT " ++ db.m_column_selection ++ " FROM " ++ table ++ " " ++ db.m_order_by
      else "" ++ "SELECT " ++ db.m_column_selection ++ " FROM " ++ table)
        ++ " LIMIT " ++ env.put_gint limit).data ++ (" OFFSET" : String).data, ?_⟩
    simp only [query_text, String.data_append, hs, ho, List.append_assoc, List.singleton_append]
    rfl
  obtain ⟨pre, hpre⟩ := hq
  have hrev : (pre ++ ' ' :: Nat.toDigits 10 o).reverse
      = (Nat.toDigits 10 o).reverse ++ ' ' :: pre.reverse := by
    simp
  unfold trailing_number
  rw [hpre, hrev, takeWhile_stops Char.isDigit _ ' ' _ _ (by decide), List.reverse_reverse]
  · exact toDigitsCore_value (o + 1) o (Nat.lt_succ_self o)
  · intro a ha
    exact toDigitsCore_isDigit (o + 1) o a (List.mem_reverse.mp ha)

theorem range_map_getD (l : List String) :
    (List.range l.length).map (fun j => l.getD j "") = l := by
  apply List.ext_getElem
  · simp
  · intro i h1 h2
    simp [List.getD_eq_getElem?_getD, List.getElem?_eq_getElem h2]

theorem table_env_page (columns : List String) (cell : Nat → Nat → GValue) (n p : Nat)
    (hp : p < 2147483648) (db : DatabaseManager) (o : Nat) :
    get_paged_table_data (table_env columns cell n p hp) db "data_types" (p : Int) (o : Int)
      = ⟨columns,
         (List.range (min (o + p) n - o)).map fun i =>
           (List.range columns.length).map fun j =>
             row_cell (table_env columns cell n p hp) (table_page columns cell n p hp o)
               columns i j⟩ := by
  have hexec : (table_env columns cell n p hp).execute_select
      (query_text (table_env columns cell n p hp) db "data_types" (p : Int) (o : Int))
      = some (table_page columns cell n p hp o) := by
    have ht := trailing_number_query (table_env columns cell n p hp) db "data_types"
      (p : Int) o rfl
    simp only [table_env] at ht ⊢
    rw [ht]
  have hcap : capture_column_names (table_page columns cell n p hp o) = columns := by
    rw [capture_all_names _ (fun j => columns.getD j "")]
    · simpa [table_page] using range_map_getD columns
    · intro j hj
      have hj' : j < columns.length := by simpa [table_page] using hj
      simp [table_page, List.getD_eq_getElem?_getD, List.getElem?_eq_getElem hj']
  rw [get_paged_of_model rfl hexec, hcap]
  simp [table_page]

/-! ## The scroll controller, one call at a time -/

theorem toGint_of_range (x : Int) (h0 : -2147483648 ≤ x) (h1 : x < 2147483648) :
    toGint x = x := by
  unfold toGint
  omega

theorem append_rows_fit (m : Nat) (rows : List (List String)) :
    ∀ store : List (List String), (∀ row ∈ rows, row.length ≤ m) →
      append_rows m rows store = some (store ++ rows) := by
  induction rows with
  | nil => intro store _; simp [append_rows]
  | cons r t ih =>
    intro store h
    have hr : r.length ≤ m := h r (List.mem_cons_self r t)
    simp only [append_rows, set_row_values, if_pos hr]
    rw [ih (store ++ [r]) (fun row hrow => h row (List.mem_cons_of_mem r hrow))]
    simp

/-- A call whose fetch returns no row: the fetch is recorded, the initial call adds the
alert, nothing else changes. -/
theorem load_when_empty (env : Env) (db : DatabaseManager) (b : Bool) (w : MyWindow)
    (h : (get_paged_table_data env db "data_types" w.m_page_size
      w.m_current_offset).rows_data = []) :
    load_data_types env db b w
      = some { w with
          fetches := w.fetches ++ [(w.m_page_size, w.m_current_offset)],
          alerts := if b then w.alerts ++ ["Error database connection or no data."]
                    else w.alerts } := by
  cases b <;> simp [load_data_types, h]

/-- An incremental call whose fetch returns rows that fit the columns. -/
theorem load_incremental (env : Env) (db : DatabaseManager) (w : MyWindow)
    (hne : (get_paged_table_data env db "data_types" w.m_page_size
      w.m_current_offset).rows_data ≠ [])
    (hfit : ∀ row ∈ (get_paged_table_data env db "data_types" w.m_page_size
      w.m_current_offset).rows_data, row.length ≤ w.m_cols) :
    load_data_types env db false w
      = some { w with
          fetches := w.fetches ++ [(w.m_page_size, w.m_current_offset)],
          m_list_store := w.m_list_store ++ (get_paged_table_data env db "data_types"
            w.m_page_size w.m_current_offset).rows_data,
          m_current_offset := toGint (w.m_current_offset + ((get_paged_table_data env db
            "data_types" w.m_page_size w.m_current_offset).rows_data.length : Int)) } := by
  simp [load_data_types, hne, append_rows_fit _ _ _ hfit]

/-- An initial call whose fetch returns rows that fit the columns of the page. -/
theorem load_initial (env : Env) (db : DatabaseManager) (w : MyWindow)
    (hne : (get_paged_table_data env db "data_types" w.m_page_size
      w.m_current_offset).rows_data ≠ [])
    (hfit : ∀ row ∈ (get_paged_table_data env db "data_types" w.m_page_size
      w.m_current_offset).rows_data,
      row.length ≤ (get_paged_table_data env db "data_types" w.m_page_size
        w.m_current_offset).column_names.length) :
    load_data_types env db true w
      = some { w with
          fetches := w.fetches ++ [(w.m_page_size, w.m_current_offset)],
          m_cols := (get_paged_table_data env db "data_types" w.m_page_size
            w.m_current_offset).column_names.length,
          tree_columns := w.tree_columns ++ (get_paged_table_data env db "data_types"
            w.m_page_size w.m_current_offset).column_names,
          m_list_store := (get_paged_table_data env db "data_types"
            w.m_page_size w.m_current_offset).rows_data,
          m_current_offset := toGint (w.m_current_offset + ((get_paged_table_data env db
            "data_types" w.m_page_size w.m_current_offset).rows_data.length : Int)) } := by
  simp [load_data_types, hne, append_rows_fit _ _ _ hfit]

/-- C2, counterexample: over three rows with pages of two, the third fetch (offset 3)
returns no row; the next bottom-edge signal keeps the offset at 3 and calls
`get_paged_table_data` a fourth time. -/
theorem exhausted_request_fetches_again :
    loads small_env plain_db 2 2 = some exhausted_window
      ∧ (get_paged_table_data small_env plain_db "data_types" 2 3).rows_data = []
      ∧ on_edge_reached small_env plain_db PositionType.BOTTOM exhausted_window
          = some { exhausted_window with fetches := [(2, 0), (2, 2), (2, 3), (2, 3)] }
      ∧ ¬ (∀ w, on_edge_reached small_env plain_db PositionType.BOTTOM exhausted_window
            = some w → w.fetches = exhausted_window.fetches) := by
  have h3 : on_edge_reached small_env plain_db PositionType.BOTTOM exhausted_window
      = some { exhausted_window with fetches := [(2, 0), (2, 2), (2, 3), (2, 3)] } := by
    decide
  refine ⟨by decide, by decide, h3, ?_⟩
  intro h
  have := h _ h3
  revert this
  decide

/-- C2, amended: once the fetch at the current offset returns no row, `m` further
bottom-edge signals leave the offset, the rendered rows and everything else as they are,
and each of them calls `get_paged_table_data` once more, with the page size and at the
unchanged offset. -/
theorem exhausted_requests (env : Env) (db : DatabaseManager) (w : MyWindow) (m : Nat)
    (hex : (get_paged_table_data env db "data_types" w.m_page_size
      w.m_current_offset).rows_data = []) :
    edge_requests env db w m
      = some { w with
          fetches := w.fetches ++ List.replicate m (w.m_page_size, w.m_current_offset) } := by
  induction m with
  | zero => simp [edge_requests]
  | succ m ih =>
    simp only [edge_requests, ih, Option.some_bind, on_edge_reached, if_true]
    refine (load_when_empty env db false
      { w with fetches := w.fetches ++ List.replicate m (w.m_page_size, w.m_current_offset) }
      hex).trans ?_
    simp [List.replicate_succ']

/-- The witness of `exhausted_requests`: two more signals on `exhausted_window`. -/
theorem exhausted_requests_witness :
    (get_paged_table_data small_env plain_db "data_types" exhausted_window.m_page_size
        exhausted_window.m_current_offset).rows_data = []
      ∧ edge_requests small_env plain_db exhausted_window 2
        = some { exhausted_window with
            fetches := [(2, 0), (2, 2), (2, 3), (2, 3), (2, 3)] } :=
  ⟨by decide, exhausted_requests small_env plain_db exhausted_window 2 (by decide)⟩

/-! ## Reconfiguration -/

theorem loads_succ (env : Env) (db : DatabaseManager) (page_size : Int) (k : Nat) :
    loads env db page_size (k + 1)
      = (loads env db page_size k).bind (on_edge_reached env db PositionType.BOTTOM) := by
  unfold loads
  cases load_data_types env db true (MyWindow.init page_size) <;> simp [edge_requests]

theorem table_env_count (columns : List String) (cell : Nat → Nat → GValue) (n p : Nat)
    (hp : p < 2147483648) (db : DatabaseManager) (o : Nat) :
    (get_paged_table_data (table_env columns cell n p hp) db "data_types" (p : Int)
      (o : Int)).rows_data.length = min (o + p) n - o := by
  rw [table_env_page]
  simp

theorem table_env_fit (columns : List String) (cell : Nat → Nat → GValue) (n p : Nat)
    (hp : p < 2147483648) (db : DatabaseManager) (o : Nat) :
    ∀ row ∈ (get_paged_table_data (table_env columns cell n p hp) db "data_types" (p : Int)
        (o : Int)).rows_data,
      row.length ≤ (get_paged_table_data (table_env columns cell n p hp) db "data_types"
        (p : Int) ((0 : Nat) : Int)).column_names.length := by
  intro row hrow
  rw [table_env_page] at hrow
  rw [table_env_page]
  simp only [List.mem_map, List.mem_range] at hrow
  obtain ⟨i, _, rfl⟩ := hrow
  simp

/-- The state after the initial load and `k` incremental loads over a table of `n` rows,
as long as the offset reached stays below 2^31. -/
theorem loads_closed_form (env : Env) (db : DatabaseManager) (p n : Nat) (hp : 0 < p)
    (hcount : ∀ o : Nat, (get_paged_table_data env db "data_types" (p : Int)
      (o : Int)).rows_data.length = min (o + p) n - o)
    (hfit : ∀ o : Nat, ∀ row ∈ (get_paged_table_data env db "data_types" (p : Int)
        (o : Int)).rows_data,
      row.length ≤ (get_paged_table_data env db "data_types" (p : Int)
        ((0 : Nat) : Int)).column_names.length) :
    ∀ k : Nat, min ((k + 1) * p) n < 2147483648 →
      ∃ w, loads env db (p : Int) k = some w
        ∧ w.m_page_size = (p : Int)
        ∧ w.m_current_offset = ((min ((k + 1) * p) n : Nat) : Int)
        ∧ (0 < n → w.m_cols = (get_paged_table_data env db "data_types" (p : Int)
            ((0 : Nat) : Int)).column_names.length)
        ∧ w.fetches = (List.range (k + 1)).map
            (fun i => ((p : Int), ((min (i * p) n : Nat) : Int)))
        ∧ w.m_list_store.length = min ((k + 1) * p) n := by
  intro k
  induction k with
  | zero =>
    intro hk
    have e1 : (0 + 1) * p = p := by omega
    have hr : List.range (0 + 1) = [0] := rfl
    have hz : ((0 : Nat) : Int) = 0 := rfl
    rw [e1] at hk ⊢
    rw [hr]
    have h0 : (get_paged_table_data env db "data_types" (p : Int) 0).rows_data.length
        = min p n := by
      have := hcount 0
      rw [hz] at this
      omega
    have hfit0 := hfit 0
    rw [hz] at hfit0 ⊢
    have hl : loads env db (p : Int) 0 = load_data_types env db true (MyWindow.init p) := by
      unfold loads
      cases load_data_types env db true (MyWindow.init p) <;> simp [edge_requests]
    have hf0 : [((p : Int), (0 : Int))]
        = List.map (fun i => ((p : Int), ((min (i * p) n : Nat) : Int))) [0] := by
      simp
    rw [hl]
    by_cases hrows : (get_paged_table_data env db "data_types" (p : Int) 0).rows_data = []
    · have hn : min p n = 0 := by
        rw [← h0, hrows]
        rfl
      refine ⟨_, load_when_empty env db true (MyWindow.init p) hrows, rfl, ?_, ?_, hf0, ?_⟩
      · show (0 : Int) = _
        rw [hn]
        rfl
      · intro hpos
        omega
      · show ([] : List (List String)).length = _
        rw [hn]
        rfl
    · refine ⟨_, load_initial env db (MyWindow.init p) hrows hfit0, rfl, ?_,
        fun _ => rfl, hf0, ?_⟩
      · show toGint (0 + ((get_paged_table_data env db "data_types" (p : Int)
          0).rows_data.length : Int)) = _
        rw [h0, toGint_of_range] <;> omega
      · exact h0
  | succ k ih =>
    intro hk
    have hmul : (k + 1 + 1) * p = (k + 1) * p + p := by ring
    have hrange : List.range (k + 1 + 1) = List.range (k + 1) ++ [k + 1] := List.range_succ (k + 1)
    rw [hmul] at hk ⊢
    rw [hrange]
    simp only [List.map_append, List.map_singleton]
    generalize (k + 1) * p = a at ih hk ⊢
    obtain ⟨w, hw, hpage, hoff, hcols, hfetch, hstore⟩ := ih (by omega)
    have heq : get_paged_table_data env db "data_types" w.m_page_size w.m_current_offset
        = get_paged_table_data env db "data_types" (p : Int) ((min a n : Nat) : Int) := by
      rw [hpage, hoff]
    have hc : (get_paged_table_data env db "data_types" w.m_page_size
        w.m_current_offset).rows_data.length = min (min a n + p) n - min a n := by
      rw [heq]
      exact hcount _
    have hf : ∀ row ∈ (get_paged_table_data env db "data_types" w.m_page_size
        w.m_current_offset).rows_data,
        row.length ≤ (get_paged_table_data env db "data_types" (p : Int)
          ((0 : Nat) : Int)).column_names.length := by
      rw [heq]
      exact hfit _
    rw [loads_succ, hw]
    simp only [Option.some_bind, on_edge_reached, if_true]
    by_cases hrows : (get_paged_table_data env db "data_types" w.m_page_size
        w.m_current_offset).rows_data = []
    · have hlen0 : min (min a n + p) n - min a n = 0 := by
        rw [← hc, hrows]
        rfl
      refine ⟨_, load_when_empty env db false w hrows, hpage, ?_, hcols, ?_, ?_⟩
      · show w.m_current_offset = _
        rw [hoff]
        congr 1
        omega
      · show w.fetches ++ [(w.m_page_size, w.m_current_offset)] = _
        rw [hfetch, hpage, hoff]
      · show w.m_list_store.length = _
        rw [hstore]
        omega
    · have hposlen : 0 < min (min a n + p) n - min a n := by
        rw [← hc]
        exact List.length_pos.mpr hrows
      have hn : 0 < n := by omega
      refine ⟨_, load_incremental env db w hrows (by rw [hcols hn]; exact hf), hpage, ?_,
        hcols, ?_, ?_⟩
      · show toGint (w.m_current_offset + ((get_paged_table_data env db "data_types"
          w.m_page_size w.m_current_offset).rows_data.length : Int)) = _
        rw [hc, hoff, toGint_of_range] <;> omega
      · show w.fetches ++ [(w.m_page_size, w.m_current_offset)] = _
        rw [hfetch, hpage, hoff]
      · show (w.m_list_store ++ (get_paged_table_data env db "data_types"
          w.m_page_size w.m_current_offset).rows_data).length = _
        rw [List.length_append, hstore, hc]
        omega

/-- C1, counterexample: over a table of 2147483650 rows served in pages of 50 (every fetch
returns the rows `o .. min (o+50) n`), the window after the initial load and 42949671
incremental loads stands at offset 2147483600; the next fetch returns 50 rows and the
`gint` offset becomes -2147483646, not `min ((k+1)*50) n = 2147483650`. -/
theorem offset_wraps_past_gint :
    (∀ o : Nat, (get_paged_table_data huge_env plain_db "data_types" ((50 : Nat) : Int)
        (o : Int)).rows_data.length = min (o + 50) 2147483650 - o)
      ∧ ∃ w w', loads huge_env plain_db ((50 : Nat) : Int) 42949671 = some w
        ∧ w.m_current_offset = 2147483600
        ∧ (get_paged_table_data huge_env plain_db "data_types" w.m_page_size
            w.m_current_offset).rows_data.length = 50
        ∧ loads huge_env plain_db ((50 : Nat) : Int) 42949672 = some w'
        ∧ w'.m_current_offset = -2147483646
        ∧ w'.m_current_offset ≠ w.m_current_offset + 50
        ∧ w'.m_current_offset ≠ ((min ((42949672 + 1) * 50) 2147483650 : Nat) : Int) := by
  have hcount : ∀ o : Nat, (get_paged_table_data huge_env plain_db "data_types"
      ((50 : Nat) : Int) (o : Int)).rows_data.length = min (o + 50) 2147483650 - o :=
    table_env_count ["a"] sample_cell 2147483650 50 (by decide) plain_db
  have hfit : ∀ o : Nat, ∀ row ∈ (get_paged_table_data huge_env plain_db "data_types"
      ((50 : Nat) : Int) (o : Int)).rows_data,
      row.length ≤ (get_paged_table_data huge_env plain_db "data_types" ((50 : Nat) : Int)
        ((0 : Nat) : Int)).column_names.length :=
    table_env_fit ["a"] sample_cell 2147483650 50 (by decide) plain_db
  refine ⟨hcount, ?_⟩
  obtain ⟨w, hw, hpage, hoff, hcols, _, _⟩ :=
    loads_closed_form huge_env plain_db 50 2147483650 (by decide) hcount hfit 42949671
      (by decide)
  have hoff' : w.m_current_offset = ((2147483600 : Nat) : Int) := by
    rw [hoff]
    rfl
  have heq : get_paged_table_data huge_env plain_db "data_types" w.m_page_size
      w.m_current_offset
      = get_paged_table_data huge_env plain_db "data_types" ((50 : Nat) : Int)
        ((2147483600 : Nat) : Int) := by
    rw [hpage, hoff']
  have hlen : (get_paged_table_data huge_env plain_db "data_types" w.m_page_size
      w.m_current_offset).rows_data.length = 50 := by
    rw [heq, hcount 2147483600]
    decide
  have hne : (get_paged_table_data huge_env plain_db "data_types" w.m_page_size
      w.m_current_offset).rows_data ≠ [] := by
    intro h
    rw [h] at hlen
    exact absurd hlen (by decide)
  have hf : ∀ row ∈ (get_paged_table_data huge_env plain_db "data_types" w.m_page_size
      w.m_current_offset).rows_data, row.length ≤ w.m_cols := by
    rw [hcols (by decide), heq]
    exact hfit 2147483600
  have hstep : loads huge_env plain_db ((50 : Nat) : Int) 42949672
      = (loads huge_env plain_db ((50 : Nat) : Int) 42949671).bind
          (on_edge_reached huge_env plain_db PositionType.BOTTOM) :=
    loads_succ huge_env plain_db ((50 : Nat) : Int) 42949671
  rw [hw] at hstep
  simp only [Option.some_bind, on_edge_reached, if_true] at hstep
  rw [load_incremental huge_env plain_db w hne hf] at hstep
  have hwrap : toGint (w.m_current_offset + ((get_paged_table_data huge_env plain_db
      "data_types" w.m_page_size w.m_current_offset).rows_data.length : Int))
      = -2147483646 := by
    rw [hlen, hoff']
    decide
  refine ⟨w, _, hw, hoff', hlen, hstep, hwrap, ?_, ?_⟩
  · show toGint _ ≠ _
    rw [hwrap, hoff']
    decide
  · show toGint _ ≠ _
    rw [hwrap]
    decide

/-- C1, amended: over a table of `n < 2^31` rows whose fetch at offset `o` returns the
`min (o+p) n - o` rows from `o` on (rows that fit the columns of the first page), every
call of `load_data_types` adds the number of rows its fetch returned to the offset; after
the initial load and `k` incremental loads the offset is `min ((k+1)*p) n`, and the fetches
made were at the offsets `min (i*p) n` for `i = 0 .. k`, the fetch at offset `o` returning
`min (o+p) n - o` rows. -/
theorem offset_after_loads (env : Env) (db : DatabaseManager) (p n : Nat) (hp : 0 < p)
    (hn : n < 2147483648)
    (hcount : ∀ o : Nat, (get_paged_table_data env db "data_types" (p : Int)
      (o : Int)).rows_data.length = min (o + p) n - o)
    (hfit : ∀ o : Nat, ∀ row ∈ (get_paged_table_data env db "data_types" (p : Int)
        (o : Int)).rows_data,
      row.length ≤ (get_paged_table_data env db "data_types" (p : Int)
        ((0 : Nat) : Int)).column_names.length)
    (k : Nat) :
    ∃ w w', loads env db (p : Int) k = some w
      ∧ loads env db (p : Int) (k + 1) = some w'
      ∧ w.m_current_offset = ((min ((k + 1) * p) n : Nat) : Int)
      ∧ w'.m_current_offset = w.m_current_offset
          + ((get_paged_table_data env db "data_types" w.m_page_size
              w.m_current_offset).rows_data.length : Int)
      ∧ w.fetches = (List.range (k + 1)).map
          (fun i => ((p : Int), ((min (i * p) n : Nat) : Int)))
      ∧ (∃ w0, load_data_types env db true (MyWindow.init (p : Int)) = some w0
          ∧ w0.fetches = [((p : Int), 0)]
          ∧ w0.m_current_offset = ((get_paged_table_data env db "data_types" (p : Int)
              0).rows_data.length : Int)) := by
  obtain ⟨w, hw, hpage, hoff, _, hfetch, _⟩ :=
    loads_closed_form env db p n hp hcount hfit k (by omega)
  obtain ⟨w', hw', _, hoff', _, _, _⟩ :=
    loads_closed_form env db p n hp hcount hfit (k + 1) (by omega)
  obtain ⟨w0, hw0, _, hoff0, _, hfetch0, _⟩ :=
    loads_closed_form env db p n hp hcount hfit 0 (by omega)
  refine ⟨w, w', hw, hw', hoff, ?_, hfetch, w0, ?_, ?_, ?_⟩
  · have hmul : (k + 1 + 1) * p = (k + 1) * p + p := by ring
    rw [hoff', hpage, hoff, hcount, hmul]
    generalize (k + 1) * p = a
    omega
  · rw [← hw0]
    unfold loads
    cases load_data_types env db true (MyWindow.init (p : Int)) <;> simp [edge_requests]
  · have hr : List.range (0 + 1) = [0] := rfl
    rw [hfetch0, hr]
    simp
  · have hz : ((0 : Nat) : Int) = 0 := rfl
    have h0 := hcount 0
    rw [hz] at h0
    rw [hoff0, h0]
    congr 1
    omega

/-- The witness of `offset_after_loads`: the table of 1000 rows in pages of 50. After the
initial load and 19 incremental loads the offset is 1000 and the fetches made were the 20
at the offsets 0, 50, ..., 950, each of 50 rows; the next call fetches at offset 1000, gets
no row and leaves the offset at 1000. -/
theorem offset_after_loads_witness :
    (∀ o : Nat, (get_paged_table_data seeded_env plain_db "data_types" ((50 : Nat) : Int)
        (o : Int)).rows_data.length = min (o + 50) 1000 - o)
      ∧ ∃ w w', loads seeded_env plain_db 50 19 = some w
        ∧ loads seeded_env plain_db 50 20 = some w'
        ∧ w.m_current_offset = 1000
        ∧ w.fetches = [(50, 0), (50, 50), (50, 100), (50, 150), (50, 200), (50, 250),
            (50, 300), (50, 350), (50, 400), (50, 450), (50, 500), (50, 550), (50, 600),
            (50, 650), (50, 700), (50, 750), (50, 800), (50, 850), (50, 900), (50, 950)]
        ∧ (∀ i : Nat, i < 20 → (get_paged_table_data seeded_env plain_db "data_types" 50
            ((50 * i : Nat) : Int)).rows_data.length = 50)
        ∧ (get_paged_table_data seeded_env plain_db "data_types" 50 1000).rows_data = []
        ∧ w'.m_current_offset = 1000
        ∧ w'.fetches = w.fetches ++ [(50, 1000)] := by
  have hcount : ∀ o : Nat, (get_paged_table_data seeded_env plain_db "data_types"
      ((50 : Nat) : Int) (o : Int)).rows_data.length = min (o + 50) 1000 - o :=
    table_env_count ["id", "name", "amount", "creation_date", "creation_time"]
      sample_cell 1000 50 (by decide) plain_db
  have hfit : ∀ o : Nat, ∀ row ∈ (get_paged_table_data seeded_env plain_db "data_types"
      ((50 : Nat) : Int) (o : Int)).rows_data,
      row.length ≤ (get_paged_table_data seeded_env plain_db "data_types" ((50 : Nat) : Int)
        ((0 : Nat) : Int)).column_names.length :=
    table_env_fit ["id", "name", "amount", "creation_date", "creation_time"]
      sample_cell 1000 50 (by decide) plain_db
  refine ⟨hcount, ?_⟩
  obtain ⟨w, w', h1, h2, h3, h4, h5, _⟩ :=
    offset_after_loads seeded_env plain_db 50 1000 (by decide) (by decide) hcount hfit 19
  obtain ⟨v, _, g1, _, _, _, g5, _⟩ :=
    offset_after_loads seeded_env plain_db 50 1000 (by decide) (by decide) hcount hfit 20
  have hv : v = w' := by
    have h2' : loads seeded_env plain_db ((50 : Nat) : Int) 20 = some w' := h2
    rw [h2'] at g1
    exact (Option.some.inj g1).symm
  subst hv
  have hlast : (get_paged_table_data seeded_env plain_db "data_types" ((50 : Nat) : Int)
      ((1000 : Nat) : Int)).rows_data = [] := List.length_eq_zero.mp (hcount 1000)
  have hpage : w.m_page_size = ((50 : Nat) : Int) := by
    obtain ⟨u, hu, hp, _⟩ :=
      loads_closed_form seeded_env plain_db 50 1000 (by decide) hcount hfit 19 (by decide)
    rw [h1] at hu
    cases hu
    exact hp
  have h3' : w.m_current_offset = ((1000 : Nat) : Int) := h3
  refine ⟨w, v, h1, h2, h3, h5, ?_, hlast, ?_, ?_⟩
  · intro i hi
    show (get_paged_table_data seeded_env plain_db "data_types" ((50 : Nat) : Int)
      ((50 * i : Nat) : Int)).rows_data.length = 50
    rw [hcount]
    omega
  · rw [h4, hpage, h3', hlast]
    rfl
  · rw [g5, h5]
    rfl

end DbViewer
